import Mathlib

/-!
Verification development for the CalmCompass check-in core
(screening scorers, suggestion resolver, crisis gate, ML guard).

Python functions that may raise are embedded as `Except String _`
(`Except.error` models a raised exception); functions that cannot raise
are embedded with an `Except` codomain that is `Except.ok` on every path,
so that "raises" versus "returns a value" is observable in the model.
Answers are natural numbers (the UI produces option indices 0..4).
Python strings handled character-wise (strip/split/slice) are modelled
as `List Char`.
-/

/-- Sentinel answer value, src/screening.py: `PREFER_NOT_ANSWER = 4`. -/
def PREFER_NOT_ANSWER : Nat := 4

/-- src/screening.py `_cap_score`: `min(a, 3) if a != PREFER_NOT_ANSWER else 0`. -/
def capScore (a : Nat) : Nat :=
  if a ≠ PREFER_NOT_ANSWER then min a 3 else 0

/-- src/screening.py `_scored_items`: capped values of the non-sentinel answers. -/
def scoredItems (answers : List Nat) : List Nat :=
  (answers.filter (fun a => a != PREFER_NOT_ANSWER)).map capScore

/-- src/screening.py `score_phq2`: raises on wrong length, else
`(score_or_none, answered_count, total_items)` with partial credit. -/
def score_phq2 (answers : List Nat) : Except String (Option Nat × Nat × Nat) :=
  if answers.length ≠ 2 then Except.error "PHQ-2 requires exactly 2 answers"
  else
    let scored := scoredItems answers
    let answered := scored.length
    if answered = 0 then Except.ok (none, 0, 2)
    else Except.ok (some scored.sum, answered, 2)

/-- src/screening.py `score_gad2` (same scheme as `score_phq2`). -/
def score_gad2 (answers : List Nat) : Except String (Option Nat × Nat × Nat) :=
  if answers.length ≠ 2 then Except.error "GAD-2 requires exactly 2 answers"
  else
    let scored := scoredItems answers
    let answered := scored.length
    if answered = 0 then Except.ok (none, 0, 2)
    else Except.ok (some scored.sum, answered, 2)

/-- src/screening.py `_has_skip`: any sentinel answer present. -/
def hasSkip (answers : List Nat) : Bool :=
  answers.any (fun a => a == PREFER_NOT_ANSWER)

/-- src/screening.py `score_phq9`: wrong length or any skip returns `None`
(never raises), else the capped sum. -/
def score_phq9 (answers : List Nat) : Except String (Option Nat) :=
  if answers.length ≠ 9 then Except.ok none
  else if hasSkip answers then Except.ok none
  else Except.ok (some (answers.map capScore).sum)

/-- src/screening.py `phq9_has_suicidal_ideation`:
`len(answers) >= 9 and answers[8] == 3`. -/
def phq9_has_suicidal_ideation (answers : List Nat) : Bool :=
  decide (9 ≤ answers.length) && (answers.getD 8 0 == 3)

/-- src/screening.py `score_gad7` (same scheme as `score_phq9`, length 7). -/
def score_gad7 (answers : List Nat) : Except String (Option Nat) :=
  if answers.length ≠ 7 then Except.ok none
  else if hasSkip answers then Except.ok none
  else Except.ok (some (answers.map capScore).sum)

/-- src/screening.py `PSS4_REVERSE = [False, True, True, False]`. -/
def PSS4_REVERSE : List Bool := [false, true, true, false]

/-- One iteration of the src/screening.py `score_pss4` loop body:
cap, then reverse-score when `PSS4_REVERSE[i]`. -/
def pss4ItemVal (i : Nat) (a : Nat) : Nat :=
  if PSS4_REVERSE.getD i false then 3 - capScore a else capScore a

/-- src/screening.py `score_pss4`: wrong length or any skip returns `None`
(never raises), else sum of the loop values. -/
def score_pss4 (answers : List Nat) : Except String (Option Nat) :=
  if answers.length ≠ 4 then Except.ok none
  else if hasSkip answers then Except.ok none
  else Except.ok (some ((answers.enum.map (fun p => pss4ItemVal p.1 p.2)).sum))

/-- src/screening.py `is_crisis_by_score`: PHQ-2 hopelessness item (index 1)
answered 3 ("Nearly every day"); legacy score-derived crisis signal. -/
def is_crisis_by_score (phq2_answers : List Nat) : Bool :=
  if phq2_answers.length < 2 then false else phq2_answers.getD 1 0 == 3

/-- src/screening.py `is_crisis` (delegates to the score-derived signal). -/
def is_crisis (phq2_answers : List Nat) : Bool :=
  is_crisis_by_score phq2_answers

/-- `true` when the `Except` models a raised Python exception. -/
def isError {α : Type} : Except String α → Bool
  | Except.error _ => true
  | Except.ok _ => false

/-! ## Suggestion resolver (src/resources.py) -/

/-- One entry of `SUGGESTION_ENGINE` (action plus two next steps). -/
structure SuggestionEntry where
  action : String
  next_steps : List String
deriving DecidableEq

/-- src/resources.py `SUGGESTION_ENGINE["minimal"]`. -/
def SUGGESTION_MINIMAL : SuggestionEntry :=
  { action := "Do one small thing in the next 10 minutes: a short walk, a glass of water, or one text to someone you trust."
    next_steps :=
      [ "This week: pick one consistent bedtime and stick to it."
      , "Save 988 and Crisis Text Line (741741) in your phone so they’re there if you need them." ] }

/-- src/resources.py `SUGGESTION_ENGINE["elevated"]`. -/
def SUGGESTION_ELEVATED : SuggestionEntry :=
  { action := "Right now: tell one person you trust that you’ve been having a tough time (even by text). You don’t have to explain everything."
    next_steps :=
      [ "This week: look up one therapist or counselor (your doctor, school, or workplace can refer)."
      , "If you have thoughts of hurting yourself, call or text 988 anytime." ] }

/-- src/resources.py `SUGGESTION_ENGINE["elevated_anxiety"]`. -/
def SUGGESTION_ELEVATED_ANXIETY : SuggestionEntry :=
  { action := "Try 4-7-8 breathing: breathe in 4, hold 7, out 8. Do it 3–4 times. It can slow your nervous system."
    next_steps :=
      [ "Name it: “I’m having a wave of worry.” Sometimes that alone helps."
      , "Write down the one thing that would help most right now—then do a 5-minute version of it." ] }

/-- src/resources.py `SUGGESTION_ENGINE["elevated_mood"]`. -/
def SUGGESTION_ELEVATED_MOOD : SuggestionEntry :=
  { action := "Reach out to one person—even a short text. “I’ve been having a tough week” is enough."
    next_steps :=
      [ "One tiny step counts: get outside for 2 minutes, or open the curtains."
      , "This week: consider sharing how you feel with a professional or someone you trust." ] }

/-- src/resources.py `SUGGESTION_ENGINE["burnout"]`. -/
def SUGGESTION_BURNOUT : SuggestionEntry :=
  { action := "You’re not lazy—you’re overloaded. Do one thing that gives you a boundary: e.g. close the laptop for 30 minutes."
    next_steps :=
      [ "Pick one thing to drop or postpone this week."
      , "Block 15 minutes of break in your calendar and treat it as non-negotiable." ] }

/-- src/resources.py `SUGGESTION_ENGINE` as a keyed lookup (dict `.get`). -/
def SUGGESTION_ENGINE (band : String) : Option SuggestionEntry :=
  if band = "minimal" then some SUGGESTION_MINIMAL
  else if band = "elevated" then some SUGGESTION_ELEVATED
  else if band = "elevated_anxiety" then some SUGGESTION_ELEVATED_ANXIETY
  else if band = "elevated_mood" then some SUGGESTION_ELEVATED_MOOD
  else if band = "burnout" then some SUGGESTION_BURNOUT
  else none

/-- src/resources.py `UNDERSTANDING_LINES["minimal"]`. -/
def UNDERSTANDING_MINIMAL : String :=
  "Your answers suggest you’ve been doing okay lately. Small habits can still help keep things on track."

/-- src/resources.py `UNDERSTANDING_LINES["elevated"]`. -/
def UNDERSTANDING_ELEVATED : String :=
  "You’ve been carrying more than usual. That doesn’t mean something is wrong with you—it means you could use some support."

/-- src/resources.py `UNDERSTANDING_LINES["incomplete"]`. -/
def UNDERSTANDING_INCOMPLETE : String :=
  "You skipped some answers—that’s okay. Here’s something that might help regardless."

/-- src/resources.py `UNDERSTANDING_LINES` as a keyed lookup (dict `.get`). -/
def UNDERSTANDING_LINES (key : String) : Option String :=
  if key = "minimal" then some UNDERSTANDING_MINIMAL
  else if key = "elevated" then some UNDERSTANDING_ELEVATED
  else if key = "incomplete" then some UNDERSTANDING_INCOMPLETE
  else none

/-- src/resources.py `REASSURANCE_LINE`. -/
def REASSURANCE_LINE : String :=
  "You don’t have to do everything. One small step is enough."

/-- src/resources.py `SUPPORT_LINE`. -/
def SUPPORT_LINE : String :=
  "988 (call or text) and Crisis Text Line (text HOME to 741741) are there 24/7. This is not a substitute for professional care."

/-- src/resources.py `PARTIAL_NOTE`. -/
def PARTIAL_NOTE : String :=
  "Some questions were skipped, so this is a general guide."

/-- The two context keys `get_suggestion` reads (Python dict with optional keys). -/
structure Context where
  workload_stress : Option String
  feeling_today : Option String
deriving DecidableEq

/-- The empty context dict. -/
def Context.empty : Context := { workload_stress := none, feeling_today := none }

/-- `score is not None and score >= 3` (src/resources.py, elevated flags). -/
def elevatedScore (s : Option Nat) : Bool :=
  match s with
  | none => false
  | some v => decide (3 ≤ v)

/-- Band-selection if-chain of src/resources.py `get_suggestion` (lines 137-148):
burnout context override, then anxiety-only, then mood, then elevated, else minimal. -/
def get_suggestion_band (elevated_phq elevated_gad : Bool) (ctx : Context) : String :=
  let elevated := elevated_phq || elevated_gad
  if (ctx.workload_stress == some "A bit much" || ctx.workload_stress == some "Overwhelming")
      && (ctx.feeling_today == some "Low energy" || ctx.feeling_today == some "Overwhelmed"
          || ctx.feeling_today == some "Stressed" || elevated) then
    "burnout"
  else if elevated && elevated_gad && !elevated_phq then
    "elevated_anxiety"
  else if elevated && elevated_phq then
    "elevated_mood"
  else if elevated then
    "elevated"
  else
    "minimal"

/-- Output bundle of `get_suggestion`. -/
structure SuggestionBundle where
  understanding : String
  action : String
  reassurance : String
  next_steps : List String
  support : String
  partial_note : Option String
deriving DecidableEq

/-- src/resources.py `get_suggestion`: severity from available scales, band from
the if-chain, bundle assembled from the static tables; `partial_note` exactly
when one (not both) score is missing. -/
def get_suggestion (phq2_score gad2_score : Option Nat) (context : Option Context) :
    SuggestionBundle :=
  let ctx := context.getD Context.empty
  let elevated_phq := elevatedScore phq2_score
  let elevated_gad := elevatedScore gad2_score
  let both_unknown := phq2_score.isNone && gad2_score.isNone
  let any_unknown := phq2_score.isNone || gad2_score.isNone
  let severity :=
    if both_unknown then "incomplete"
    else if elevated_phq || elevated_gad then "elevated" else "minimal"
  let band := get_suggestion_band elevated_phq elevated_gad ctx
  let entry := (SUGGESTION_ENGINE band).getD SUGGESTION_MINIMAL
  { understanding := (UNDERSTANDING_LINES severity).getD UNDERSTANDING_MINIMAL
    action := entry.action
    reassurance := REASSURANCE_LINE
    next_steps := entry.next_steps
    support := SUPPORT_LINE
    partial_note := if any_unknown && !both_unknown then some PARTIAL_NOTE else none }

/-- Band selection as worded by the spec (§4.3 steps 3-7, first match wins):
burnout context check first, then gad-only elevation, then phq elevation
(including both elevated), then elevated, otherwise minimal. Written from the
spec's words for comparison with `get_suggestion_band`. -/
def specBandScores (phq2_score gad2_score : Option Nat) (ctx : Context) : String :=
  let eP := elevatedScore phq2_score
  let eG := elevatedScore gad2_score
  let elevated := eP || eG
  if (ctx.workload_stress == some "A bit much" || ctx.workload_stress == some "Overwhelming")
      && (ctx.feeling_today == some "Low energy" || ctx.feeling_today == some "Overwhelmed"
          || ctx.feeling_today == some "Stressed" || elevated) then
    "burnout"
  else if eG && !eP then "elevated_anxiety"
  else if eP then "elevated_mood"
  else if elevated then "elevated"
  else "minimal"

/-- The burnout context-override condition of `get_suggestion`
(src/resources.py lines 137-139), with the `elevated` flag as given:
workload "A bit much" or "Overwhelming", and feeling-today in
{Low energy, Overwhelmed, Stressed} or `elevated`. -/
def burnoutOverride (ctx : Context) (elevated : Bool) : Bool :=
  (ctx.workload_stress == some "A bit much" || ctx.workload_stress == some "Overwhelming")
    && (ctx.feeling_today == some "Low energy" || ctx.feeling_today == some "Overwhelmed"
        || ctx.feeling_today == some "Stressed" || elevated)

/-! ## Crisis gate and results step (src/app.py, src/resources.py) -/

/-- The `lifeline` sub-dict of resources/region JSON consumed by
`get_crisis_message_immediate`. -/
structure Lifeline where
  name : Option String
  phone : Option String
deriving DecidableEq

/-- The `text_line` sub-dict of resources/region JSON. -/
structure TextLine where
  name : Option String
  keyword : Option String
  number : Option String
deriving DecidableEq

/-- The fields of the region JSON that `get_crisis_message_immediate` reads
(`crisis.immediate_danger`, `crisis.lifeline`, `crisis.text_line`,
`support_note`); `none` models a missing or empty (falsy) dict entry.
The file read of `load_crisis_resources` is abstracted as this value. -/
structure CrisisData where
  immediate_danger : Option String
  lifeline : Option Lifeline
  text_line : Option TextLine
  support_note : Option String
deriving DecidableEq

/-- src/resources.py `get_crisis_message_immediate`: builds the crisis panel
text from the region data with the hard-coded defaults. -/
def get_crisis_message_immediate (data : CrisisData) : String :=
  let immediate := data.immediate_danger.getD
    "If you are in immediate danger, call 911 or your local emergency number."
  let note := data.support_note.getD "You don\x27t have to be in crisis to use these lines."
  let lines0 : List String :=
    ["**" ++ immediate ++ "**", "", "**You’re not alone. Reach out now.**", ""]
  let lines1 :=
    match data.lifeline with
    | none => lines0
    | some lf =>
      lines0 ++ ["- **" ++ lf.name.getD "988 Suicide & Crisis Lifeline"
        ++ "** — Call or text **" ++ lf.phone.getD "988" ++ "** (24/7)"]
  let lines2 :=
    match data.text_line with
    | none => lines1
    | some tl =>
      lines1 ++ ["- **" ++ tl.name.getD "Crisis Text Line" ++ "** — Text **"
        ++ tl.keyword.getD "HOME" ++ "** to **" ++ tl.number.getD "741741" ++ "** (24/7)"]
  String.intercalate "\n" (lines2 ++ ["", note])

/-- src/resources.py `GROUNDING_SCRIPT` (30-second 5-4-3-2-1 script). -/
def GROUNDING_SCRIPT : String :=
  "\nFind a comfortable place. You can do this in under a minute.\n\n**5 – See**  \nName 5 things you can see (e.g. a window, your hands, the floor).\n\n**4 – Touch**  \nName 4 things you can feel (e.g. your feet on the ground, the chair, your breath).\n\n**3 – Hear**  \nName 3 things you can hear (e.g. traffic, a fan, your own breathing).\n\n**2 – Smell**  \nName 2 things you can smell (or 2 breaths if nothing stands out).\n\n**1 – One thing you’re okay about right now**  \n(e.g. “I’m safe in this room,” “I got through the last hour.”)\n\nYou’re here. If you need to, repeat the 5-4-3-2-1 or call 988.\n"

/-- Crisis-gate check of the results step, src/app.py line 805:
`if self_harm == "Yes":` (session default is `None`, modelled `none`). -/
def crisisGate (self_harm : Option String) : Bool :=
  self_harm == some "Yes"

/-- Session-state fields the results step reads (src/app.py lines 801-835). -/
structure SessionState where
  self_harm : Option String
  phq2 : List Nat
  gad2 : List Nat
  context : Option Context
  one_sentence : Option String

/-- Decision-core calls a render of the results step performs, in order. -/
inductive CoreCall where
  | scorePhq2Call
  | scoreGad2Call
  | getSuggestionCall
  | predictEmotionCall
deriving DecidableEq

/-- What one render of the results step produces: either the crisis-only
panel (message, grounding script, back-to-home target) or the normal
results (suggestion bundle plus both short-form score results). -/
inductive ResultsRender where
  | crisis (panel : String) (grounding : String) (backTarget : String)
  | normal (suggestion : SuggestionBundle)
      (phq2Result gad2Result : Option Nat × Nat × Nat)
deriving DecidableEq

/-- src/app.py results step (lines 801-835): the crisis branch renders only
the fixed panel, grounding script and a back-to-home action; the normal
branch scores both short forms, resolves the suggestion, and (when a
one-sentence text is present) consults the emotion model. The second
component records which decision-core functions the render called. -/
def results_step (st : SessionState) (data : CrisisData) :
    Except String ResultsRender × List CoreCall :=
  if crisisGate st.self_harm then
    (Except.ok (ResultsRender.crisis (get_crisis_message_immediate data)
        GROUNDING_SCRIPT "intro"), [])
  else
    match score_phq2 (st.phq2.take 2) with
    | Except.error e => (Except.error e, [CoreCall.scorePhq2Call])
    | Except.ok phq2Result =>
      match score_gad2 (st.gad2.take 2) with
      | Except.error e => (Except.error e, [CoreCall.scorePhq2Call, CoreCall.scoreGad2Call])
      | Except.ok gad2Result =>
        let suggestion := get_suggestion phq2Result.1 gad2Result.1 st.context
        let baseCalls := [CoreCall.scorePhq2Call, CoreCall.scoreGad2Call,
          CoreCall.getSuggestionCall]
        let calls :=
          if ((st.one_sentence.getD "").trim ≠ "") then
            baseCalls ++ [CoreCall.predictEmotionCall]
          else baseCalls
        (Except.ok (ResultsRender.normal suggestion phq2Result gad2Result), calls)

/-! ## Emotion-classifier guard (src/ml/inference.py)

Python strings are modelled as `List Char`; `str.strip` / `str.split()` /
slicing are modelled character-wise with `Char.isWhitespace` as the
whitespace class. -/

/-- src/ml/inference.py `MIN_WORDS_FOR_ML = 3`. -/
def MIN_WORDS_FOR_ML : Nat := 3

/-- src/ml/inference.py `MIN_CONFIDENCE = 0.35` (as an exact rational). -/
def MIN_CONFIDENCE : Rat := 35 / 100

/-- Remove trailing whitespace (right half of Python `str.strip`). -/
def rstripWS : List Char → List Char
  | [] => []
  | c :: cs =>
    let r := rstripWS cs
    if r.isEmpty && c.isWhitespace then [] else c :: r

/-- Python `str.strip()`: drop leading, then trailing, whitespace. -/
def pyStrip (s : List Char) : List Char :=
  rstripWS (s.dropWhile Char.isWhitespace)

/-- Number of whitespace-separated words, continuing from the state
`inWord` (inside a word just before this suffix). -/
def wordCountAux : List Char → Bool → Nat
  | [], _ => 0
  | c :: cs, inWord =>
    if c.isWhitespace then wordCountAux cs false
    else (if inWord then 0 else 1) + wordCountAux cs true

/-- Python `len(s.split())`: count of maximal non-whitespace runs. -/
def pyWordCount (s : List Char) : Nat :=
  wordCountAux s false

/-- Python `str.lower()` character-wise. -/
def pyLower (s : List Char) : List Char :=
  s.map Char.toLower

/-- src/ml/inference.py `EMOTION_TO_STATE` dict. -/
def EMOTION_TO_STATE (label : List Char) : Option (List Char) :=
  if label = "sadness".toList then some ("low_mood".toList)
  else if label = "joy".toList then some ("ok".toList)
  else if label = "love".toList then some ("ok".toList)
  else if label = "anger".toList then some ("stress".toList)
  else if label = "fear".toList then some ("anxiety".toList)
  else if label = "surprise".toList then some ("stress".toList)
  else none

/-- One pipeline output record (`label`, `score`); the float confidence is
modelled as an exact rational. -/
structure PipeOut where
  label : List Char
  score : Rat

/-- src/ml/inference.py `predict_emotion`. The pipeline (already loaded, or
`none` when loading failed) is passed as a total function; exceptions inside
the Python `try` are outside this model. The extra `Bool` records whether
the pipeline was actually invoked on the text ("the ML model was
consulted"). -/
def predict_emotion (text : Option (List Char))
    (pipe : Option (List Char → List PipeOut)) :
    (Option (List Char) × Rat) × Bool :=
  match text with
  | none => ((none, 0), false)
  | some t0 =>
    if (pyStrip t0).isEmpty then ((none, 0), false)
    else
      let t := (pyStrip t0).take 512
      if pyWordCount t < MIN_WORDS_FOR_ML then ((none, 0), false)
      else
        match pipe with
        | none => ((none, 0), false)
        | some p =>
          match p t with
          | [] => ((none, 0), true)
          | o :: _ =>
            let label := pyLower (pyStrip o.label)
            if (EMOTION_TO_STATE label).isNone then ((none, 0), true)
            else ((some label, o.score), true)

/-! ## Helper lemmas -/

theorem hasSkip_of_mem (answers : List Nat) (h : PREFER_NOT_ANSWER ∈ answers) :
    hasSkip answers = true := by
  simp only [hasSkip, List.any_eq_true, beq_iff_eq]
  exact ⟨PREFER_NOT_ANSWER, h, rfl⟩

theorem wordCountAux_take_le (s : List Char) :
    ∀ (n : Nat) (b : Bool), wordCountAux (s.take n) b ≤ wordCountAux s b := by
  induction s with
  | nil => intro n b; simp [wordCountAux]
  | cons c cs ih =>
    intro n b
    cases n with
    | zero => simp [wordCountAux]
    | succ m =>
      simp only [List.take_succ_cons, wordCountAux]
      by_cases hw : c.isWhitespace
      · simp only [hw, if_true]
        exact ih m false
      · simp only [hw, if_false]
        exact Nat.add_le_add_left (ih m true) _

theorem wordCountAux_dropWhile_ws (s : List Char) :
    wordCountAux (s.dropWhile Char.isWhitespace) false = wordCountAux s false := by
  induction s with
  | nil => rfl
  | cons c cs ih =>
    by_cases hw : c.isWhitespace
    · simp only [List.dropWhile_cons, hw, if_true, wordCountAux, ih]
    · simp only [List.dropWhile_cons, hw, if_false, wordCountAux]

theorem wordCountAux_rstrip_le (s : List Char) :
    ∀ b : Bool, wordCountAux (rstripWS s) b ≤ wordCountAux s b := by
  induction s with
  | nil => intro b; simp [rstripWS]
  | cons c cs ih =>
    intro b
    simp only [rstripWS]
    by_cases h : ((rstripWS cs).isEmpty && c.isWhitespace) = true
    · rw [if_pos h]
      simp [wordCountAux]
    · rw [if_neg h]
      by_cases hw : c.isWhitespace
      · simp only [wordCountAux, hw, if_true]
        exact ih false
      · simp only [wordCountAux, hw, if_false]
        exact Nat.add_le_add_left (ih true) _

theorem pyWordCount_strip_take_lt (s : List Char)
    (h : pyWordCount s < MIN_WORDS_FOR_ML) :
    pyWordCount ((pyStrip s).take 512) < MIN_WORDS_FOR_ML := by
  have h1 : pyWordCount ((pyStrip s).take 512) ≤ pyWordCount (pyStrip s) :=
    wordCountAux_take_le _ 512 false
  have h2 : pyWordCount (pyStrip s) ≤ pyWordCount s := by
    unfold pyWordCount pyStrip
    calc wordCountAux (rstripWS (s.dropWhile Char.isWhitespace)) false
        ≤ wordCountAux (s.dropWhile Char.isWhitespace) false :=
          wordCountAux_rstrip_le _ false
      _ = wordCountAux s false := wordCountAux_dropWhile_ws s
  omega

theorem band_refines_spec (p g : Option Nat) (ctx : Context) :
    get_suggestion_band (elevatedScore p) (elevatedScore g) ctx = specBandScores p g ctx := by
  unfold get_suggestion_band specBandScores
  cases elevatedScore p <;> cases elevatedScore g <;> simp

/-! ## Claim theorems -/

/-- Claim C3, counterexample: a 9-item AnswerSet with a sentinel at index 0
(so only 8 answered, non-sentinel, items) and value 3 at index 8 still
triggers `phq9_has_suicidal_ideation` — the code checks raw length, not the
answered count, so the claim as stated is false. -/
theorem suicidal_ideation_sentinel_counterexample :
    phq9_has_suicidal_ideation [4, 0, 0, 0, 0, 0, 0, 0, 3] = true
  ∧ (scoredItems [4, 0, 0, 0, 0, 0, 0, 0, 3]).length = 8 := by
  decide

/-- Claim C3, amended: `phq9_has_suicidal_ideation` is true iff the AnswerSet
has at least 9 items (answered or not) and the item at index 8 equals 3;
a sentinel at index 8 never triggers the flag. -/
theorem suicidal_ideation_characterization (answers : List Nat) :
    (phq9_has_suicidal_ideation answers = true ↔
      9 ≤ answers.length ∧ answers.getD 8 0 = 3)
  ∧ (answers.getD 8 0 = PREFER_NOT_ANSWER → phq9_has_suicidal_ideation answers = false) := by
  constructor
  · simp [phq9_has_suicidal_ideation]
  · intro h
    unfold phq9_has_suicidal_ideation
    rw [h]
    simp [PREFER_NOT_ANSWER]

/-- Claim C3 amended-theorem witness at concrete inputs: value 3 at index 8 of
a full 9-item set triggers the flag; a sentinel at index 8 does not. -/
theorem suicidal_ideation_characterization_witness :
    phq9_has_suicidal_ideation [0, 0, 0, 0, 0, 0, 0, 0, 3] = true
  ∧ phq9_has_suicidal_ideation [0, 0, 0, 0, 0, 0, 0, 0, 4] = false :=
  ⟨(suicidal_ideation_characterization [0, 0, 0, 0, 0, 0, 0, 0, 3]).1.mpr
      ⟨by decide, by decide⟩,
   (suicidal_ideation_characterization [0, 0, 0, 0, 0, 0, 0, 0, 4]).2 (by decide)⟩

/-- Claim C4, counterexample: the 9-item scorer called with a wrong-length
AnswerSet (the empty list) does not raise — it returns the value `None`. -/
theorem wrong_length_returns_value_counterexample :
    isError (score_phq9 []) = false ∧ score_phq9 [] = Except.ok none :=
  ⟨rfl, rfl⟩

/-- Claim C4, amended: only the 2-item scorers raise on wrong-length input;
the 9-item, 7-item and PSS-4 scorers return an absent score (`None`)
instead of raising. -/
theorem wrong_length_contracts :
    (∀ answers : List Nat, answers.length ≠ 2 → isError (score_phq2 answers) = true)
  ∧ (∀ answers : List Nat, answers.length ≠ 2 → isError (score_gad2 answers) = true)
  ∧ (∀ answers : List Nat, answers.length ≠ 9 → score_phq9 answers = Except.ok none)
  ∧ (∀ answers : List Nat, answers.length ≠ 7 → score_gad7 answers = Except.ok none)
  ∧ (∀ answers : List Nat, answers.length ≠ 4 → score_pss4 answers = Except.ok none) := by
  refine ⟨?_, ?_, ?_, ?_, ?_⟩ <;> intro answers h <;>
    simp [score_phq2, score_gad2, score_phq9, score_gad7, score_pss4, h, isError]

/-- Claim C4 amended-theorem witness at the empty AnswerSet. -/
theorem wrong_length_contracts_witness :
    isError (score_phq2 []) = true
  ∧ isError (score_gad2 []) = true
  ∧ score_phq9 [] = Except.ok none
  ∧ score_gad7 [] = Except.ok none
  ∧ score_pss4 [] = Except.ok none :=
  ⟨wrong_length_contracts.1 [] (by decide),
   wrong_length_contracts.2.1 [] (by decide),
   wrong_length_contracts.2.2.1 [] (by decide),
   wrong_length_contracts.2.2.2.1 [] (by decide),
   wrong_length_contracts.2.2.2.2 [] (by decide)⟩

/-- Claim C5: partial scoring of the 2-item forms by the number of sentinel
values: both sentinel gives an absent score with 0 answered; one sentinel
gives the single capped non-sentinel value with 1 answered; no sentinel
gives the sum of both capped values with 2 answered; total_items is 2. -/
theorem short_form_partial_scoring (a b : Nat) :
    ((a = PREFER_NOT_ANSWER ∧ b = PREFER_NOT_ANSWER) →
      score_phq2 [a, b] = Except.ok (none, 0, 2)
      ∧ score_gad2 [a, b] = Except.ok (none, 0, 2))
  ∧ ((a = PREFER_NOT_ANSWER ∧ b ≠ PREFER_NOT_ANSWER) →
      score_phq2 [a, b] = Except.ok (some (min b 3), 1, 2)
      ∧ score_gad2 [a, b] = Except.ok (some (min b 3), 1, 2))
  ∧ ((a ≠ PREFER_NOT_ANSWER ∧ b = PREFER_NOT_ANSWER) →
      score_phq2 [a, b] = Except.ok (some (min a 3), 1, 2)
      ∧ score_gad2 [a, b] = Except.ok (some (min a 3), 1, 2))
  ∧ ((a ≠ PREFER_NOT_ANSWER ∧ b ≠ PREFER_NOT_ANSWER) →
      score_phq2 [a, b] = Except.ok (some (min a 3 + min b 3), 2, 2)
      ∧ score_gad2 [a, b] = Except.ok (some (min a 3 + min b 3), 2, 2)) := by
  refine ⟨?_, ?_, ?_, ?_⟩
  · rintro ⟨ha, hb⟩
    subst ha; subst hb
    exact ⟨rfl, rfl⟩
  · rintro ⟨ha, hb⟩
    subst ha
    have hb' : (b != PREFER_NOT_ANSWER) = true := by simp [bne_iff_ne, hb]
    simp [score_phq2, score_gad2, scoredItems, List.filter, hb', capScore, hb]
  · rintro ⟨ha, hb⟩
    subst hb
    have ha' : (a != PREFER_NOT_ANSWER) = true := by simp [bne_iff_ne, ha]
    simp [score_phq2, score_gad2, scoredItems, List.filter, ha', capScore, ha]
  · rintro ⟨ha, hb⟩
    have ha' : (a != PREFER_NOT_ANSWER) = true := by simp [bne_iff_ne, ha]
    have hb' : (b != PREFER_NOT_ANSWER) = true := by simp [bne_iff_ne, hb]
    simp [score_phq2, score_gad2, scoredItems, List.filter, ha', hb', capScore, ha, hb]

/-- Claim C5 witness: one sentinel and one answered 0 give score 0 (the single
capped value), answered 1 of 2. -/
theorem short_form_partial_scoring_witness :
    score_phq2 [4, 0] = Except.ok (some (min 0 3), 1, 2)
  ∧ score_gad2 [4, 0] = Except.ok (some (min 0 3), 1, 2) :=
  (short_form_partial_scoring 4 0).2.1 ⟨rfl, by decide⟩

/-- Claim C6: any sentinel anywhere in a valid-length long-form AnswerSet
(9-item, 7-item, PSS-4) makes the whole score absent. -/
theorem long_form_sentinel_absent :
    (∀ answers : List Nat, answers.length = 9 → PREFER_NOT_ANSWER ∈ answers →
      score_phq9 answers = Except.ok none)
  ∧ (∀ answers : List Nat, answers.length = 7 → PREFER_NOT_ANSWER ∈ answers →
      score_gad7 answers = Except.ok none)
  ∧ (∀ answers : List Nat, answers.length = 4 → PREFER_NOT_ANSWER ∈ answers →
      score_pss4 answers = Except.ok none) := by
  refine ⟨?_, ?_, ?_⟩ <;> intro answers hl hm <;>
    simp [score_phq9, score_gad7, score_pss4, hl, hasSkip_of_mem answers hm]

/-- Claim C6 witness: a single sentinel among otherwise maximal answers makes
each long-form score absent. -/
theorem long_form_sentinel_absent_witness :
    score_phq9 [4, 3, 3, 3, 3, 3, 3, 3, 3] = Except.ok none
  ∧ score_gad7 [3, 3, 3, 4, 3, 3, 3] = Except.ok none
  ∧ score_pss4 [3, 3, 3, 4] = Except.ok none :=
  ⟨long_form_sentinel_absent.1 [4, 3, 3, 3, 3, 3, 3, 3, 3] (by decide) (by decide),
   long_form_sentinel_absent.2.1 [3, 3, 3, 4, 3, 3, 3] (by decide) (by decide),
   long_form_sentinel_absent.2.2 [3, 3, 3, 4] (by decide) (by decide)⟩

/-- Claim C9: `score_pss4` reverse-scores exactly the items at indices 1 and 2
as `3 - capped_value` and sums indices 0 and 3 directly; in particular
`score_pss4 [0, 0, 0, 0] = 6`. -/
theorem pss4_reverse_scoring (a b c d : Nat)
    (ha : a ≠ PREFER_NOT_ANSWER) (hb : b ≠ PREFER_NOT_ANSWER)
    (hc : c ≠ PREFER_NOT_ANSWER) (hd : d ≠ PREFER_NOT_ANSWER) :
    score_pss4 [a, b, c, d] =
      Except.ok (some (min a 3 + (3 - min b 3) + (3 - min c 3) + min d 3))
  ∧ score_pss4 [0, 0, 0, 0] = Except.ok (some 6) := by
  constructor
  · have ha' : (a == PREFER_NOT_ANSWER) = false := by simp [ha]
    have hb' : (b == PREFER_NOT_ANSWER) = false := by simp [hb]
    have hc' : (c == PREFER_NOT_ANSWER) = false := by simp [hc]
    have hd' : (d == PREFER_NOT_ANSWER) = false := by simp [hd]
    simp [score_pss4, hasSkip, pss4ItemVal, PSS4_REVERSE, capScore, List.enum,
      List.enumFrom, List.getD, ha, hb, hc, hd, ha', hb', hc', hd']
    omega
  · rfl

/-- Claim C9 witness: all-zero answers score 6 (3 from each reversed item). -/
theorem pss4_reverse_scoring_witness :
    score_pss4 [0, 0, 0, 0] =
      Except.ok (some (min 0 3 + (3 - min 0 3) + (3 - min 0 3) + min 0 3)) :=
  (pss4_reverse_scoring 0 0 0 0 (by decide) (by decide) (by decide) (by decide)).1

/-- Claim C7: `get_suggestion` selects its band by the first-match-wins order
of the spec (burnout context check first, then gad-only anxiety, then phq
mood — also when both are elevated —, then elevated, else minimal); in
particular scores (3, 1) with workload "Overwhelming" and feeling
"Overwhelmed" select the burnout band. -/
theorem suggestion_band_first_match :
    (∀ (p g : Option Nat) (ctx : Context),
        get_suggestion_band (elevatedScore p) (elevatedScore g) ctx = specBandScores p g ctx)
  ∧ (∀ (p g : Option Nat) (context : Option Context),
        (get_suggestion p g context).action =
          ((SUGGESTION_ENGINE (specBandScores p g (context.getD Context.empty))).getD
            SUGGESTION_MINIMAL).action
      ∧ (get_suggestion p g context).next_steps =
          ((SUGGESTION_ENGINE (specBandScores p g (context.getD Context.empty))).getD
            SUGGESTION_MINIMAL).next_steps)
  ∧ specBandScores (some 3) (some 1)
      { workload_stress := some "Overwhelming", feeling_today := some "Overwhelmed" } = "burnout"
  ∧ (get_suggestion (some 3) (some 1)
      (some { workload_stress := some "Overwhelming", feeling_today := some "Overwhelmed" })).action
      = SUGGESTION_BURNOUT.action
  ∧ (get_suggestion (some 3) (some 1)
      (some { workload_stress := some "Overwhelming", feeling_today := some "Overwhelmed" })).next_steps
      = SUGGESTION_BURNOUT.next_steps := by
  refine ⟨band_refines_spec, ?_, rfl, rfl, rfl⟩
  intro p g context
  constructor <;>
    simp only [get_suggestion, band_refines_spec]

/-- Claim C8, counterexample: with both scores absent but a burnout-triggering
context, the bundle's action comes from the burnout band and not from the
minimal band (the burnout override runs before any score-based banding), so
the unrestricted both-absent-implies-minimal-content reading is false; the
understanding line is still the "incomplete" one. -/
theorem suggestion_both_absent_burnout_counterexample :
    (get_suggestion none none (some ⟨some "Overwhelming", some "Overwhelmed"⟩)).action
      = SUGGESTION_BURNOUT.action
  ∧ (get_suggestion none none (some ⟨some "Overwhelming", some "Overwhelmed"⟩)).action
      ≠ SUGGESTION_MINIMAL.action
  ∧ (get_suggestion none none (some ⟨some "Overwhelming", some "Overwhelmed"⟩)).understanding
      = UNDERSTANDING_INCOMPLETE := by
  refine ⟨rfl, ?_, rfl⟩
  decide

/-- Claim C8, amended: `get_suggestion` is total over absent scores; with both
scores absent the understanding is the "incomplete" line and no partial note
is attached, for every context, and the action/next_steps come from the
"minimal" band exactly when the burnout context override does not fire (in
particular at the empty context), from the "burnout" band when it does; with
exactly one score absent the partial note is attached; `get_suggestion
(some 4) none {}` has the partial note, the "elevated" understanding and the
elevated_mood band. -/
theorem suggestion_total_absent_scores :
    (∀ context : Option Context,
        (get_suggestion none none context).understanding = UNDERSTANDING_INCOMPLETE
      ∧ (get_suggestion none none context).partial_note = none
      ∧ (get_suggestion none none context).support = SUPPORT_LINE)
  ∧ (∀ context : Option Context,
        burnoutOverride (context.getD Context.empty) false = false →
        (get_suggestion none none context).action = SUGGESTION_MINIMAL.action
      ∧ (get_suggestion none none context).next_steps = SUGGESTION_MINIMAL.next_steps)
  ∧ (get_suggestion none none (some Context.empty)).action = SUGGESTION_MINIMAL.action
  ∧ (get_suggestion none none (some Context.empty)).next_steps = SUGGESTION_MINIMAL.next_steps
  ∧ (∀ context : Option Context,
        burnoutOverride (context.getD Context.empty) false = true →
        (get_suggestion none none context).action = SUGGESTION_BURNOUT.action
      ∧ (get_suggestion none none context).next_steps = SUGGESTION_BURNOUT.next_steps)
  ∧ (∀ (p g : Option Nat) (context : Option Context),
        (p.isNone = true ∧ g.isNone = false) ∨ (p.isNone = false ∧ g.isNone = true) →
        (get_suggestion p g context).partial_note = some PARTIAL_NOTE)
  ∧ (get_suggestion (some 4) none (some Context.empty)).partial_note = some PARTIAL_NOTE
  ∧ (get_suggestion (some 4) none (some Context.empty)).understanding = UNDERSTANDING_ELEVATED
  ∧ (get_suggestion (some 4) none (some Context.empty)).action = SUGGESTION_ELEVATED_MOOD.action
  ∧ (get_suggestion (some 4) none (some Context.empty)).next_steps
      = SUGGESTION_ELEVATED_MOOD.next_steps := by
  refine ⟨fun context => ⟨rfl, rfl, rfl⟩, ?_, rfl, rfl, ?_, ?_, rfl, rfl, rfl, rfl⟩
  · intro context h
    simp only [burnoutOverride, Bool.or_false] at h
    constructor <;> simp [get_suggestion, get_suggestion_band, elevatedScore, h, SUGGESTION_ENGINE]
  · intro context h
    simp only [burnoutOverride, Bool.or_false] at h
    constructor <;> simp [get_suggestion, get_suggestion_band, elevatedScore, h, SUGGESTION_ENGINE]
  · intro p g context h
    rcases h with ⟨h1, h2⟩ | ⟨h1, h2⟩ <;> simp [get_suggestion, h1, h2]

/-- Claim C8 witness: phq2 score 4 with absent gad2 attaches the partial note;
both-absent with no context gives the minimal action, and both-absent with a
burnout-triggering context gives the burnout action. -/
theorem suggestion_total_absent_scores_witness :
    (get_suggestion (some 4) none none).partial_note = some PARTIAL_NOTE
  ∧ (get_suggestion none none none).action = SUGGESTION_MINIMAL.action
  ∧ (get_suggestion none none (some ⟨some "Overwhelming", some "Stressed"⟩)).action
      = SUGGESTION_BURNOUT.action :=
  ⟨suggestion_total_absent_scores.2.2.2.2.2.1 (some 4) none none (Or.inr ⟨rfl, rfl⟩),
   (suggestion_total_absent_scores.2.1 none (by decide)).1,
   (suggestion_total_absent_scores.2.2.2.2.1
      (some ⟨some "Overwhelming", some "Stressed"⟩) (by decide)).1⟩

/-- Claim C1: once the crisis gate is tripped (self-harm answer "Yes"), the
results render is exactly the fixed crisis panel, the grounding script, and
the back-to-home action, and no score or suggestion computation is reached:
the render's call trace is empty, so `get_suggestion`, `score_phq2` and
`score_gad2` are never called. -/
theorem crisis_short_circuit (st : SessionState) (data : CrisisData)
    (h : st.self_harm = some "Yes") :
    results_step st data =
      (Except.ok (ResultsRender.crisis (get_crisis_message_immediate data)
        GROUNDING_SCRIPT "intro"), ([] : List CoreCall))
  ∧ CoreCall.getSuggestionCall ∉ (results_step st data).2
  ∧ CoreCall.scorePhq2Call ∉ (results_step st data).2
  ∧ CoreCall.scoreGad2Call ∉ (results_step st data).2 := by
  have hg : crisisGate st.self_harm = true := by simp [crisisGate, h]
  have hmain : results_step st data =
      (Except.ok (ResultsRender.crisis (get_crisis_message_immediate data)
        GROUNDING_SCRIPT "intro"), ([] : List CoreCall)) := by
    unfold results_step
    rw [if_pos hg]
  refine ⟨hmain, ?_, ?_, ?_⟩ <;> rw [hmain] <;> simp

/-- Claim C1 witness: a concrete "Yes" session renders only the crisis panel
with an empty call trace. -/
theorem crisis_short_circuit_witness :
    results_step ⟨some "Yes", [0, 0], [0, 0], none, none⟩ ⟨none, none, none, none⟩ =
      (Except.ok (ResultsRender.crisis
        (get_crisis_message_immediate ⟨none, none, none, none⟩)
        GROUNDING_SCRIPT "intro"), ([] : List CoreCall)) :=
  (crisis_short_circuit _ _ rfl).1

/-- Claim C2: the crisis gate is true iff the self-harm answer is exactly
"Yes"; for "No", "Prefer not to say" and the unset answer it is false and the
results step proceeds with the normal flow (its first decision-core call is
`score_phq2`). -/
theorem crisis_gate_yes_only :
    (∀ sh : Option String, crisisGate sh = true ↔ sh = some "Yes")
  ∧ crisisGate (some "No") = false
  ∧ crisisGate (some "Prefer not to say") = false
  ∧ crisisGate none = false
  ∧ (∀ (st : SessionState) (data : CrisisData), crisisGate st.self_harm = false →
      (results_step st data).2.head? = some CoreCall.scorePhq2Call) := by
  refine ⟨?_, by decide, by decide, rfl, ?_⟩
  · intro sh
    simp [crisisGate]
  · intro st data h
    unfold results_step
    rw [if_neg (by simp [h])]
    rcases hsp : score_phq2 (st.phq2.take 2) with e | pr
    · simp
    · rcases hsg : score_gad2 (st.gad2.take 2) with e | gr
      · simp
      · by_cases hone : ((st.one_sentence.getD "").trim ≠ "")
        · simp [hone]
        · simp [hone]

/-- Claim C2 witness: the gate is true at "Yes", and a "No" session's first
decision-core call is `score_phq2`. -/
theorem crisis_gate_yes_only_witness :
    crisisGate (some "Yes") = true
  ∧ (results_step ⟨some "No", [0, 0], [0, 0], none, none⟩
      ⟨none, none, none, none⟩).2.head? = some CoreCall.scorePhq2Call :=
  ⟨(crisis_gate_yes_only.1 (some "Yes")).mpr rfl,
   crisis_gate_yes_only.2.2.2.2 _ _ rfl⟩

/-- Claim C10: `predict_emotion` returns `(none, 0)` with the pipeline never
invoked whenever the text is missing, strips to empty, or has fewer than
`MIN_WORDS_FOR_ML` words — for every pipeline argument. -/
theorem predict_emotion_guard (text : Option (List Char))
    (pipe : Option (List Char → List PipeOut))
    (h : text = none ∨ ∃ s, text = some s ∧
      (pyStrip s = [] ∨ pyWordCount s < MIN_WORDS_FOR_ML)) :
    predict_emotion text pipe = ((none, 0), false) := by
  rcases h with h | ⟨s, rfl, hs⟩
  · subst h; rfl
  · rcases hs with hs | hs
    · have he : (pyStrip s).isEmpty = true := by simp [hs]
      simp [predict_emotion, he]
    · by_cases he : (pyStrip s).isEmpty = true
      · simp [predict_emotion, he]
      · simp [predict_emotion, he, pyWordCount_strip_take_lt s hs]

/-- Claim C10 witness: unset text, and a concrete 2-word text, both fall back
without consulting the model, even with a pipeline present that would return
a confident label. -/
theorem predict_emotion_guard_witness :
    predict_emotion none none = ((none, 0), false)
  ∧ predict_emotion (some ("hi there".toList))
      (some (fun _ => [{ label := "sadness".toList, score := 9 / 10 }])) = ((none, 0), false) :=
  ⟨predict_emotion_guard none none (Or.inl rfl),
   predict_emotion_guard _ _ (Or.inr ⟨"hi there".toList, rfl, Or.inr (by decide)⟩)⟩
